import Mathlib

/-!
Verification development for the DynaQR attendance backend.

Shallow embedding of the attendance-domain slice of the repository:
the legacy mongoose models (backend/models/Session.js, Attendance.js,
User.js), the refactored v2 models (SessionNew, QRToken, AttendanceNew,
Teaching, AuditLog) and the express controller
backend/controllers/attendanceController.js.

Conventions of the embedding:
- Dates (JS Date / mongoose Date) are modelled as Int milliseconds.
- Mongo ObjectIds are modelled as Nat.
- A mongoose collection is a list of documents; findOne / find are
  List.find? / List.filter over it.
- JS number arithmetic in the metrics endpoint is modelled as exact
  arithmetic (Math.round of a nonnegative quotient is round half up).
- A request handler is a pure function from the request, the store and
  the wall clock to a result and an updated store.
-/

namespace DynaQR

/-- Session status values of the v2 model (SessionNew, SESSION_STATUSES). -/
inductive SessionStatus where
  | scheduled
  | active
  | completed
  | cancelled
deriving DecidableEq, Repr

/-- Legacy Session document (backend/models/Session.js): faculty, subject,
section, the class time window, the QR secret and the is_active flag
(default true; false is the sticky manual-deactivation marker). -/
structure Session where
  faculty_id : Nat
  subject : String
  sect : String
  class_start_time : Int
  class_end_time : Int
  secret_key : String
  is_active : Bool
deriving DecidableEq, Repr

/-- Refactored v2 Session document (models/SessionNew.js): references a
teaching assignment and stores a status from SESSION_STATUSES. -/
structure SessionNew where
  teaching_id : Nat
  start_time : Int
  end_time : Int
  secret_key : String
  status : SessionStatus
deriving DecidableEq, Repr

/-- SessionSchemaNew end_time validator: end_time must be after start_time. -/
def sessionNewEndTimeValid (s : SessionNew) : Bool :=
  decide (s.start_time < s.end_time)

/-- SessionSchemaNew.methods.updateStatusByTime: recompute the status from
the wall clock; a cancelled session is left unchanged. -/
def updateStatusByTime (s : SessionNew) (now : Int) : SessionNew :=
  if s.status = .cancelled then s
  else if now < s.start_time then { s with status := .scheduled }
  else if s.start_time ≤ now ∧ now ≤ s.end_time then { s with status := .active }
  else if s.end_time < now then { s with status := .completed }
  else s

/-- The derived (wall-clock) status of a session: the status field after
updateStatusByTime. This is the pure function the spec calls deriveStatus. -/
def deriveStatus (s : SessionNew) (now : Int) : SessionStatus :=
  (updateStatusByTime s now).status

/-- QRToken document (models/QRToken.js): a rotating code bound to one
session with an expiry instant. -/
structure QRToken where
  session_id : Nat
  token : String
  expires_at : Int
deriving DecidableEq, Repr

/-- QRTokenSchema.statics.validateToken: findOne on
(session_id, token, expires_at strictly greater than now). -/
def validateToken (store : List QRToken) (sessionId : Nat) (code : String)
    (now : Int) : Option QRToken :=
  store.find? fun t =>
    t.session_id == sessionId && t.token == code && decide (now < t.expires_at)

/-- QRTokenSchema.statics.generateForSession: insert a fresh token whose
expires_at is now plus validityMs. The random code is a parameter of the
embedding. Returns the grown store and the created token. -/
def generateForSession (store : List QRToken) (sessionId : Nat) (code : String)
    (validityMs : Int) (now : Int) : List QRToken × QRToken :=
  let t : QRToken := ⟨sessionId, code, now + validityMs⟩
  (store ++ [t], t)

/-- QRTokenSchema.methods.isValid: now is before expires_at. -/
def tokenIsValid (t : QRToken) (now : Int) : Bool :=
  decide (now < t.expires_at)

/-- Teaching document (models/Teaching.js): one faculty teaching one subject
to one section in one semester of one academic year. -/
structure Teaching where
  faculty_id : Nat
  subject_id : Nat
  sect : String
  semester : Nat
  academic_year : String
  is_active : Bool
deriving DecidableEq, Repr

/-- The student fields consulted by enrollment (models/Student.js). -/
structure StudentDoc where
  name : String
  usn : String
  sect : String
  semester : Nat
deriving DecidableEq, Repr

/-- TeachingSchema.methods.isStudentEnrolled: the student's section and
semester both match the teaching assignment. -/
def isStudentEnrolled (t : Teaching) (student : StudentDoc) : Bool :=
  student.sect == t.sect && student.semester == t.semester

/-- Roles of the legacy User model (models/User.js). -/
inductive Role where
  | student
  | faculty
deriving DecidableEq, Repr

/-- Legacy User document (models/User.js). The student_details subdocument
is required only for the student role, hence Option. -/
structure User where
  role : Role
  student_details : Option StudentDoc
deriving DecidableEq, Repr

/-- Legacy Attendance document (backend/models/Attendance.js): the session
and student references plus the name and usn snapshots and the timestamp. -/
structure AttendanceRecord where
  session_id : Nat
  student_id : Nat
  student_name : String
  usn : String
  timestamp : Int
deriving DecidableEq, Repr

/-- A mongoose secondary-index declaration: the indexed key path names and
whether the index is unique. -/
structure IndexSpec where
  keys : List String
  uniq : Bool
deriving DecidableEq, Repr

/-- Indexes declared by the legacy attendanceSchema
(backend/models/Attendance.js): none. -/
def attendanceSchemaIndexes : List IndexSpec := []

/-- Indexes declared by AttendanceSchemaNew (models/AttendanceNew.js):
the unique (session_id, student_id) constraint plus three query indexes. -/
def attendanceSchemaNewIndexes : List IndexSpec :=
  [⟨["session_id", "student_id"], true⟩,
   ⟨["student_id", "marked_at"], false⟩,
   ⟨["session_id"], false⟩,
   ⟨["session_id", "ip_address"], false⟩]

/-- Whether a schema declares a unique index on (session_id, student_id),
the storage-level duplicate-attendance guard. -/
def hasUniqueSessionStudentIndex (idx : List IndexSpec) : Bool :=
  idx.any fun i => i.uniq && i.keys == ["session_id", "student_id"]

/-- AuditLog document (models/AuditLog.js). -/
structure AuditEvent where
  action : String
  actor_type : String
  actor_id : Option Nat
  actor_type_ref : Option String
  target_type : Option String
  target_id : Option Nat
  created_at : Int
deriving DecidableEq, Repr

/-- AuditLogSchema.statics.log: append one event; the actor_type_ref is
derived from the actor_type. -/
def auditLog (log : List AuditEvent) (action : String) (actor_type : String)
    (actor_id : Option Nat) (target_type : Option String)
    (target_id : Option Nat) (now : Int) : List AuditEvent :=
  let actor_type_ref :=
    if actor_type == "student" then some "Student"
    else if actor_type == "faculty" then some "Faculty"
    else none
  log ++ [⟨action, actor_type, actor_id, actor_type_ref, target_type,
           target_id, now⟩]

/-- AuditLogSchema.statics.logAttendance: one ATTENDANCE_MARK or
ATTENDANCE_DENIED event for the student against the session. -/
def logAttendance (log : List AuditEvent) (student_id : Option Nat)
    (session_id : Option Nat) (success : Bool) (now : Int) :
    List AuditEvent :=
  auditLog log (if success then "ATTENDANCE_MARK" else "ATTENDANCE_DENIED")
    "student" student_id (some "session") session_id now

/-- The persistent store seen by the attendance controller: the legacy
sessions, attendance records and users collections, plus the AuditLog
collection (which the controller never writes). -/
structure Store where
  sessions : List (Nat × Session)
  attendance : List AttendanceRecord
  users : List (Nat × User)
  audit : List AuditEvent
deriving DecidableEq, Repr

/-- Session.findById. -/
def findSession (store : Store) (sessionId : Nat) : Option Session :=
  (store.sessions.find? fun p => p.1 == sessionId).map (·.2)

/-- Attendance.findOne on (session_id, student_id). -/
def findAttendance (recs : List AttendanceRecord) (sessionId studentId : Nat) :
    Option AttendanceRecord :=
  recs.find? fun r => r.session_id == sessionId && r.student_id == studentId

/-- User.findById. -/
def findUser (store : Store) (userId : Nat) : Option User :=
  (store.users.find? fun p => p.1 == userId).map (·.2)

/-- Attendance.create against a collection that may or may not carry the
unique (session_id, student_id) index: with the index, a duplicate insert
is rejected by the store (mongo error 11000, modelled as none); without
it, the insert always succeeds. -/
def insertAttendance (uniqueIndex : Bool) (recs : List AttendanceRecord)
    (r : AttendanceRecord) : Option (List AttendanceRecord) :=
  if uniqueIndex && (findAttendance recs r.session_id r.student_id).isSome
  then none
  else some (recs ++ [r])

/-- The body of a POST /api/attendance/mark request: the session id, the
optional QR code and the authenticated user set by the protect middleware. -/
structure MarkReq where
  sessionId : Option Nat
  code : Option String
  user : Option Nat
deriving DecidableEq, Repr

/-- The terminal outcomes of markAttendance, named after the responses of
attendanceController.js. sessionInactive realizes the SessionCancelled
reason of the specification, notStarted NotStarted, windowClosed
WindowClosed, alreadyMarked AlreadyMarked and invalidQR the invalid-code
rejection of the snapshot that still checks the QR code. -/
inductive MarkResult where
  | success
  | badRequest
  | sessionNotFound
  | sessionInactive
  | invalidQR
  | notStarted
  | windowClosed
  | userNotFound
  | alreadyMarked
  | profileIncomplete
  | serverError
deriving DecidableEq, Repr

/-- markAttendance, current snapshot of attendanceController.js: the QR
code check is removed (the request body is destructured to sessionId
only), the gates are the is_active flag, the fresh wall clock against the
stored window, the req.user presence check, the duplicate pre-check, the
profile check, and the insert into the legacy Attendance collection with
the mongo duplicate-key error (11000) answered as already marked. -/
def markAttendance (store : Store) (req : MarkReq) (now : Int) :
    MarkResult × Store :=
  match req.sessionId with
  | none => (.badRequest, store)
  | some sid =>
    match findSession store sid with
    | none => (.sessionNotFound, store)
    | some session =>
      if !session.is_active then (.sessionInactive, store)
      else if now < session.class_start_time then (.notStarted, store)
      else if session.class_end_time < now then (.windowClosed, store)
      else
        match req.user with
        | none => (.userNotFound, store)
        | some uid =>
          if (findAttendance store.attendance sid uid).isSome then
            (.alreadyMarked, store)
          else
            match findUser store uid with
            | none => (.profileIncomplete, store)
            | some student =>
              match student.student_details with
              | none => (.profileIncomplete, store)
              | some d =>
                match insertAttendance
                    (hasUniqueSessionStudentIndex attendanceSchemaIndexes)
                    store.attendance ⟨sid, uid, d.name, d.usn, now⟩ with
                | some recs => (.success, { store with attendance := recs })
                | none => (.alreadyMarked, store)

/-- markAttendance, earlier snapshot kept in the same controller file: it
requires both sessionId and code and rejects a code different from the
session secret_key before the time gates. A missing user or profile makes
the record construction throw, answered as a 500 by the catch block. -/
def markAttendanceV2 (store : Store) (req : MarkReq) (now : Int) :
    MarkResult × Store :=
  match req.sessionId, req.code with
  | some sid, some code =>
    (match findSession store sid with
    | none => (.sessionNotFound, store)
    | some session =>
      if !session.is_active then (.sessionInactive, store)
      else if session.secret_key ≠ code then (.invalidQR, store)
      else if now < session.class_start_time then (.notStarted, store)
      else if session.class_end_time < now then (.windowClosed, store)
      else
        match req.user with
        | none => (.serverError, store)
        | some uid =>
          if (findAttendance store.attendance sid uid).isSome then
            (.alreadyMarked, store)
          else
            match findUser store uid with
            | none => (.serverError, store)
            | some student =>
              match student.student_details with
              | none => (.serverError, store)
              | some d =>
                match insertAttendance
                    (hasUniqueSessionStudentIndex attendanceSchemaIndexes)
                    store.attendance ⟨sid, uid, d.name, d.usn, now⟩ with
                | some recs => (.success, { store with attendance := recs })
                | none => (.alreadyMarked, store))
  | _, _ => (.badRequest, store)

/-- The body of a POST /api/attendance/create request. -/
structure CreateReq where
  subject : Option String
  sect : Option String
  startTime : Option Int
  endTime : Option Int
deriving DecidableEq, Repr

/-- Terminal outcomes of createSession. The created outcome carries the
full session document of the 201 response, secret_key included. -/
inductive CreateResult where
  | created (sessionId : Nat) (s : Session)
  | missingFields
  | invalidWindow
deriving DecidableEq, Repr

/-- createSession, current snapshot of attendanceController.js: require
all four fields, reject a start at or after the end with the invalid
window error, then persist the session (is_active defaults to true) with
a fresh random secret. The random secret and the fresh ObjectId are
parameters of the embedding. -/
def createSession (store : Store) (facultyId : Nat) (req : CreateReq)
    (secret : String) (newId : Nat) : CreateResult × Store :=
  match req.subject, req.sect, req.startTime, req.endTime with
  | some subj, some sec, some st, some et =>
    if et ≤ st then (.invalidWindow, store)
    else
      let s : Session := ⟨facultyId, subj, sec, st, et, secret, true⟩
      (.created newId s, { store with sessions := store.sessions ++ [(newId, s)] })
  | _, _, _, _ => (.missingFields, store)

/-- The session part of the getSessionDetails response: every Session
field except secret_key, which the controller excludes with a negative
select. -/
structure SessionView where
  faculty_id : Nat
  subject : String
  sect : String
  class_start_time : Int
  class_end_time : Int
  is_active : Bool
deriving DecidableEq, Repr

/-- Project a session document onto the secret-free view. -/
def sessionView (s : Session) : SessionView :=
  ⟨s.faculty_id, s.subject, s.sect, s.class_start_time, s.class_end_time,
   s.is_active⟩

/-- One attendee row of the getSessionDetails response: the select keeps
student_name, usn and timestamp. -/
structure AttendeeView where
  student_name : String
  usn : String
  timestamp : Int
deriving DecidableEq, Repr

/-- Terminal outcomes of getSessionDetails. -/
inductive DetailsResult where
  | notFound
  | notAuthorized
  | ok (session : SessionView) (attendees : List AttendeeView)
deriving DecidableEq, Repr

/-- getSessionDetails, current snapshot: fetch the session without its
secret_key, enforce ownership, and list the attendees. -/
def getSessionDetails (store : Store) (sessionId requesterId : Nat) :
    DetailsResult :=
  match findSession store sessionId with
  | none => .notFound
  | some s =>
    if s.faculty_id ≠ requesterId then .notAuthorized
    else
      .ok (sessionView s)
        ((store.attendance.filter fun r => r.session_id == sessionId).map
          fun r => ⟨r.student_name, r.usn, r.timestamp⟩)

/-- Insertion step of the class_start_time descending sort used by the
teacher dashboard query. -/
def insertByStartDesc (s : Session) : List Session → List Session
  | [] => [s]
  | t :: ts =>
    if t.class_start_time ≤ s.class_start_time then s :: t :: ts
    else t :: insertByStartDesc s ts

/-- Sort sessions by class_start_time, newest first. -/
def sortByStartDesc (l : List Session) : List Session :=
  l.foldr insertByStartDesc []

/-- The getTeacherDashboardData response. recentSessions carries full
session documents, secret_key included (the query has no select). -/
structure DashboardData where
  totalSessions : Nat
  activeSessions : Nat
  sessionsToday : Nat
  recentSessions : List Session
deriving DecidableEq, Repr

/-- getTeacherDashboardData, current snapshot: all sessions of the
faculty member newest first, the session counts, and the five most recent
sessions returned verbatim. dayStart and dayEnd are the bounds of the
server day that the controller computes with setHours. -/
def getTeacherDashboardData (store : Store) (facultyId : Nat)
    (now dayStart dayEnd : Int) : DashboardData :=
  let sessions :=
    sortByStartDesc
      ((store.sessions.filter fun p => p.2.faculty_id == facultyId).map (·.2))
  let sessionsToday :=
    (sessions.filter fun s =>
      decide (dayStart ≤ s.class_start_time) &&
      decide (s.class_start_time ≤ dayEnd)).length
  let activeSessions :=
    (sessions.filter fun s =>
      s.is_active && decide (s.class_start_time ≤ now) &&
      decide (now ≤ s.class_end_time)).length
  ⟨sessions.length, activeSessions, sessionsToday, sessions.take 5⟩

/-- One per-subject accumulator entry of getStudentMetrics (the
subjectStats object, in insertion order). -/
structure ClassStat where
  subject : String
  total : Nat
  attended : Nat
deriving DecidableEq, Repr

/-- One step of the subject aggregation: create the subject entry on
first sight, then bump total and, when the session was attended, the
attended count. -/
def bumpStat (attended : Bool) (subj : String) :
    List ClassStat → List ClassStat
  | [] => [⟨subj, 1, if attended then 1 else 0⟩]
  | c :: cs =>
    if c.subject = subj then
      ⟨c.subject, c.total + 1, c.attended + (if attended then 1 else 0)⟩ :: cs
    else c :: bumpStat attended subj cs

/-- The subjectStats aggregation of getStudentMetrics over the sessions of
the section, given the set of session ids the student attended. -/
def subjectStatsOf (attendedIds : List Nat) (sessions : List (Nat × Session)) :
    List ClassStat :=
  sessions.foldl (fun acc p => bumpStat (attendedIds.contains p.1) p.2.subject acc) []

/-- Math.round of 100 * attended / total under exact arithmetic (round
half up of a nonnegative quotient), assuming total is nonzero. -/
def jsRoundPct (attended total : Nat) : Nat :=
  (200 * attended + total) / (2 * total)

/-- One class entry of the getStudentMetrics response. -/
structure ClassMetrics where
  name : String
  attended : Nat
  total : Nat
  percent : Nat
deriving DecidableEq, Repr

/-- The getStudentMetrics response. -/
structure StudentMetrics where
  totalSessions : Nat
  attendedSessions : Nat
  overallPercent : Nat
  classes : List ClassMetrics
deriving DecidableEq, Repr

/-- getStudentMetrics, current snapshot: reject a missing user or a
non-student role (403), collect the sessions of the student section and
the attendance of the student, aggregate per subject, and guard every
percentage division by a total of zero. none covers the 403 denial and
the 500 on a student document without details. -/
def getStudentMetrics (store : Store) (userId : Nat) :
    Option StudentMetrics :=
  match findUser store userId with
  | none => none
  | some u =>
    if u.role ≠ .student then none
    else
      match u.student_details with
      | none => none
      | some d =>
        let allSessions := store.sessions.filter fun p => p.2.sect == d.sect
        let allAttendance := store.attendance.filter fun r => r.student_id == userId
        let attendedIds := allAttendance.map (·.session_id)
        let stats := subjectStatsOf attendedIds allSessions
        let classes := stats.map fun st =>
          ClassMetrics.mk st.subject st.attended st.total
            (if st.total == 0 then 0 else jsRoundPct st.attended st.total)
        let totalSessions := allSessions.length
        let attendedSessions := allAttendance.length
        some ⟨totalSessions, attendedSessions,
          if totalSessions == 0 then 0 else jsRoundPct attendedSessions totalSessions,
          classes⟩

/-!
Concurrency model for duplicate marking.

Each markAttendance request performs two store accesses that matter for
the duplicate invariant: the findOne pre-check, then the insert (whose
duplicate-key rejection, if any, comes from the unique index of the
collection). A configuration holds the shared attendance collection and
the phase of every concurrent request for the same (session, student)
pair; a schedule is the order in which the requests take their next
atomic store access.
-/

/-- Phase of one in-flight markAttendance request for a fixed
(session, student) pair. -/
inductive ThreadPhase where
  | ready
  | inserting
  | done (r : MarkResult)
deriving DecidableEq, Repr

/-- A configuration of N concurrent markAttendance requests over the
shared attendance collection. -/
structure ConcConfig where
  recs : List AttendanceRecord
  threads : List ThreadPhase
deriving DecidableEq, Repr

/-- One atomic store access of thread i: the pre-check answers already
marked on a hit and otherwise proceeds to the insert; the insert appends
the record, or answers already marked when the unique index rejects it. -/
def concStep (uniqueIndex : Bool) (rec : AttendanceRecord) (cfg : ConcConfig)
    (i : Nat) : ConcConfig :=
  match cfg.threads.get? i with
  | some .ready =>
    if (findAttendance cfg.recs rec.session_id rec.student_id).isSome then
      { cfg with threads := cfg.threads.set i (.done .alreadyMarked) }
    else
      { cfg with threads := cfg.threads.set i .inserting }
  | some .inserting =>
    match insertAttendance uniqueIndex cfg.recs rec with
    | some recs => ⟨recs, cfg.threads.set i (.done .success)⟩
    | none => { cfg with threads := cfg.threads.set i (.done .alreadyMarked) }
  | _ => cfg

/-- Run a schedule of atomic accesses. -/
def concRun (uniqueIndex : Bool) (rec : AttendanceRecord) (cfg : ConcConfig) :
    List Nat → ConcConfig
  | [] => cfg
  | i :: rest => concRun uniqueIndex rec (concStep uniqueIndex rec cfg i) rest

/-- The number of attendance records of one (session, student) pair. -/
def pairCount (sessionId studentId : Nat) (recs : List AttendanceRecord) : Nat :=
  recs.countP fun r => r.session_id == sessionId && r.student_id == studentId

/-- View a legacy session as a v2 session for status derivation: the
sticky is_active flag is the cancellation marker (false means cancelled)
and a live session carries the scheduled default, which deriveStatus
replaces by the wall-clock status. -/
def legacyAsSessionNew (s : Session) : SessionNew :=
  ⟨0, s.class_start_time, s.class_end_time, s.secret_key,
   if s.is_active then .scheduled else .cancelled⟩

/-- Replace the secret of every stored session: two stores related this
way hold sessions that differ only in their secrets. -/
def mapSecret (store : Store) (sk : String) : Store :=
  { store with
    sessions := store.sessions.map fun p => (p.1, { p.2 with secret_key := sk }) }

/-- Fixture: a section A session of faculty 3 with window 0 to 100. -/
def sessMath : Session := ⟨3, "Maths", "A", 0, 100, "s3cr3t", true⟩

/-- Fixture: a second session of the same faculty with another secret. -/
def sessPhy : Session := ⟨3, "Physics", "A", 0, 100, "p4ssphrase", true⟩

/-- Fixture: a section A student profile. -/
def detA : StudentDoc := ⟨"Asha", "1RV23CS001", "A", 5⟩

/-- Fixture: a section B student profile. -/
def detB : StudentDoc := ⟨"Bela", "1RV23CS002", "B", 5⟩

/-- Fixture: the section A student user. -/
def userA : User := ⟨.student, some detA⟩

/-- Fixture: the section B student user. -/
def userB : User := ⟨.student, some detB⟩

/-- Fixture store: session 1 and the enrolled section A student 7. -/
def storeA : Store := ⟨[(1, sessMath)], [], [(7, userA)], []⟩

/-- Fixture store: session 1 and the section B student 8. -/
def storeB : Store := ⟨[(1, sessMath)], [], [(8, userB)], []⟩

/-- Fixture store: sessions 1 and 2 of faculty 3 and student 7, for
presenting the secret of one session against the other. -/
def storeXY : Store :=
  ⟨[(1, sessMath), (2, sessPhy)], [], [(7, userA)], []⟩

/-- Fixture: the teaching assignment behind the section A session. -/
def teachA : Teaching := ⟨3, 11, "A", 5, "2025-26", true⟩

/-- Fixture: the attendance record student 7 gets for session 1 at 50. -/
def recA : AttendanceRecord := ⟨1, 7, "Asha", "1RV23CS001", 50⟩

/-- A find? hit in a list survives appending more elements on the right. -/
theorem find?_append_of_some {α : Type} {p : α → Bool} {l₁ l₂ : List α} {a : α}
    (h : l₁.find? p = some a) : (l₁ ++ l₂).find? p = some a := by
  induction l₁ with
  | nil => simp [List.find?] at h
  | cons x xs ih =>
    rw [List.cons_append]
    by_cases hx : p x
    · rw [List.find?_cons_of_pos _ hx] at h
      rw [List.find?_cons_of_pos _ hx]
      exact h
    · rw [List.find?_cons_of_neg _ hx] at h
      rw [List.find?_cons_of_neg _ hx]
      exact ih h

/-- Claim C5: deriveStatus is a pure function of the session and the
clock, cancelled is sticky (the derived status is cancelled exactly when
the stored one is), and otherwise the status is scheduled before the
window, active inside it, completed after it. The hypothesis is the
stored-session invariant that the window is nonempty. -/
theorem deriveStatus_spec (s : SessionNew) (now : Int)
    (hw : s.start_time < s.end_time) :
    (deriveStatus s now = .cancelled ↔ s.status = .cancelled) ∧
    (s.status ≠ .cancelled → now < s.start_time →
      deriveStatus s now = .scheduled) ∧
    (s.status ≠ .cancelled → s.start_time ≤ now → now ≤ s.end_time →
      deriveStatus s now = .active) ∧
    (s.status ≠ .cancelled → s.end_time < now →
      deriveStatus s now = .completed) := by
  unfold deriveStatus updateStatusByTime
  split_ifs with h1 h2 h3 h4 <;> simp_all <;> omega

/-- Witness for deriveStatus_spec: a concrete scheduled session, derived
inside its window, is active. -/
theorem deriveStatus_spec_witness :
    deriveStatus ⟨5, 100, 200, "k", .scheduled⟩ 150 = .active :=
  (deriveStatus_spec ⟨5, 100, 200, "k", .scheduled⟩ 150 (by decide)).2.2.1
    (by decide) (by decide) (by decide)

/-- Claim C6: validateToken answers a token exactly when the store holds
one carrying the same session id and the same code whose expiry is still
in the future; any answered token is such a stored token, so a token of
another session is never answered; validation is a pure read of the
store; rotating in a new token preserves every earlier hit; and two
tokens issued 10 seconds apart with 60 seconds validity are both valid in
the overlap window. -/
theorem validateToken_spec (store : List QRToken) (sessionId : Nat)
    (code : String) (now : Int) :
    (validateToken store sessionId code now = none ↔
      ∀ t ∈ store, ¬(t.session_id = sessionId ∧ t.token = code ∧
        now < t.expires_at)) ∧
    (∀ t, validateToken store sessionId code now = some t →
      t ∈ store ∧ t.session_id = sessionId ∧ t.token = code ∧
        now < t.expires_at) ∧
    (∀ t ∈ store, t.session_id ≠ sessionId →
      validateToken store sessionId code now ≠ some t) ∧
    (∀ t sid₂ code₂ validity,
      validateToken store sessionId code now = some t →
      validateToken (generateForSession store sid₂ code₂ validity now).1
        sessionId code now = some t) ∧
    ((validateToken
        (generateForSession
          (generateForSession [] 9 "aaa111" 60000 0).1
          9 "bbb222" 60000 10000).1 9 "aaa111" 30000).isSome = true ∧
      (validateToken
        (generateForSession
          (generateForSession [] 9 "aaa111" 60000 0).1
          9 "bbb222" 60000 10000).1 9 "bbb222" 30000).isSome = true) := by
  refine ⟨?_, ?_, ?_, ?_, by decide⟩
  · unfold validateToken
    rw [List.find?_eq_none]
    constructor
    · intro h t ht
      have := h t ht
      simp only [Bool.and_eq_true, beq_iff_eq, decide_eq_true_eq] at this
      tauto
    · intro h t ht
      have := h t ht
      simp only [Bool.and_eq_true, beq_iff_eq, decide_eq_true_eq]
      tauto
  · intro t ht
    refine ⟨List.mem_of_find?_eq_some ht, ?_⟩
    have := List.find?_some ht
    simp only [Bool.and_eq_true, beq_iff_eq, decide_eq_true_eq] at this
    tauto
  · intro t _ hne hsome
    have := List.find?_some hsome
    simp only [Bool.and_eq_true, beq_iff_eq, decide_eq_true_eq] at this
    exact hne this.1.1
  · intro t sid₂ code₂ validity h
    unfold validateToken at h
    exact find?_append_of_some h

/-- Witness for validateToken_spec: in a concrete two-token store the
validation of the older code answers exactly that token. -/
theorem validateToken_spec_witness :
    validateToken [⟨9, "aaa111", 60000⟩, ⟨9, "bbb222", 70000⟩] 9 "aaa111"
      30000 = some ⟨9, "aaa111", 60000⟩ ∧
    (⟨9, "aaa111", 60000⟩ : QRToken) ∈
      [⟨9, "aaa111", 60000⟩, ⟨9, "bbb222", 70000⟩] :=
  ⟨by decide,
   ((validateToken_spec [⟨9, "aaa111", 60000⟩, ⟨9, "bbb222", 70000⟩] 9
      "aaa111" 30000).2.1 ⟨9, "aaa111", 60000⟩ (by decide)).1⟩

/-- Claim C3: the temporal gate of markAttendance is exactly the status
freshly derived from the wall clock at the moment of the scan: the
inactive rejection is the derived cancelled status, the not-started
rejection the derived scheduled status, the closed rejection the derived
completed status, and only the derived active status reaches the
duplicate check and the insert. -/
theorem markAttendance_temporal_gate (store : Store) (code : Option String)
    (now : Int) (sid uid : Nat) (session : Session)
    (hfind : findSession store sid = some session) :
    ((markAttendance store ⟨some sid, code, some uid⟩ now).1 =
        .sessionInactive ↔
      deriveStatus (legacyAsSessionNew session) now = .cancelled) ∧
    ((markAttendance store ⟨some sid, code, some uid⟩ now).1 = .notStarted ↔
      deriveStatus (legacyAsSessionNew session) now = .scheduled) ∧
    ((markAttendance store ⟨some sid, code, some uid⟩ now).1 = .windowClosed ↔
      deriveStatus (legacyAsSessionNew session) now = .completed) ∧
    (((markAttendance store ⟨some sid, code, some uid⟩ now).1 = .success ∨
      (markAttendance store ⟨some sid, code, some uid⟩ now).1 =
        .alreadyMarked ∨
      (markAttendance store ⟨some sid, code, some uid⟩ now).1 =
        .profileIncomplete) ↔
      deriveStatus (legacyAsSessionNew session) now = .active) := by
  have hder : deriveStatus (legacyAsSessionNew session) now =
      if !session.is_active then .cancelled
      else if now < session.class_start_time then .scheduled
      else if session.class_end_time < now then .completed
      else .active := by
    unfold deriveStatus updateStatusByTime legacyAsSessionNew
    cases hact : session.is_active <;> split_ifs <;> simp_all <;> omega
  have hres : (markAttendance store ⟨some sid, code, some uid⟩ now).1 =
      if !session.is_active then .sessionInactive
      else if now < session.class_start_time then .notStarted
      else if session.class_end_time < now then .windowClosed
      else
        if (findAttendance store.attendance sid uid).isSome then
          .alreadyMarked
        else
          match findUser store uid with
          | none => .profileIncomplete
          | some student =>
            match student.student_details with
            | none => .profileIncomplete
            | some d =>
              match insertAttendance
                  (hasUniqueSessionStudentIndex attendanceSchemaIndexes)
                  store.attendance ⟨sid, uid, d.name, d.usn, now⟩ with
              | some _ => .success
              | none => .alreadyMarked := by
    unfold markAttendance
    dsimp only
    rw [hfind]
    dsimp only
    split_ifs <;> try rfl
    cases findUser store uid with
    | none => rfl
    | some student =>
      dsimp only
      cases student.student_details with
      | none => rfl
      | some d =>
        dsimp only
        cases h : insertAttendance
            (hasUniqueSessionStudentIndex attendanceSchemaIndexes)
            store.attendance ⟨sid, uid, d.name, d.usn, now⟩ <;>
          simp [h]
  rw [hres, hder]
  by_cases hact : session.is_active
  · by_cases h1 : now < session.class_start_time
    · simp [hact, h1]
    · by_cases h2 : session.class_end_time < now
      · simp [hact, h1, h2]
      · simp only [hact, Bool.not_true, Bool.false_eq_true, if_false, h1,
          h2, if_neg, not_false_eq_true]
        cases hFA : (findAttendance store.attendance sid uid).isSome
        · simp only [hFA, Bool.false_eq_true, if_false]
          cases findUser store uid with
          | none => simp
          | some student =>
            dsimp only
            cases student.student_details with
            | none => simp
            | some d =>
              dsimp only
              cases h : insertAttendance
                  (hasUniqueSessionStudentIndex attendanceSchemaIndexes)
                  store.attendance ⟨sid, uid, d.name, d.usn, now⟩ <;>
                simp [h]
        · simp [hFA]
  · simp [hact]

/-- Witness for markAttendance_temporal_gate: in a concrete store, a scan
before the window is rejected as not started and that matches the derived
scheduled status. -/
theorem markAttendance_temporal_gate_witness :
    (markAttendance
        ⟨[(1, ⟨3, "Maths", "A", 100, 200, "s3", true⟩)], [], [], []⟩
        ⟨some 1, none, some 7⟩ 50).1 = .notStarted ↔
      deriveStatus (legacyAsSessionNew ⟨3, "Maths", "A", 100, 200, "s3", true⟩)
        50 = .scheduled :=
  (markAttendance_temporal_gate
    ⟨[(1, ⟨3, "Maths", "A", 100, 200, "s3", true⟩)], [], [], []⟩
    none 50 1 7 ⟨3, "Maths", "A", 100, 200, "s3", true⟩
    (by decide)).2.1

/-- Claim C7: with all fields present, createSession answers the
invalid-window error exactly when the end is not after the start, a
rejected request leaves the store untouched, and the window invariant of
the session collection is preserved by every createSession call. -/
theorem createSession_window (store : Store) (facultyId : Nat)
    (subj sec : String) (st et : Int) (secret : String) (newId : Nat) :
    ((createSession store facultyId ⟨some subj, some sec, some st, some et⟩
        secret newId).1 = .invalidWindow ↔ et ≤ st) ∧
    ((createSession store facultyId ⟨some subj, some sec, some st, some et⟩
        secret newId).1 = .invalidWindow →
      (createSession store facultyId ⟨some subj, some sec, some st, some et⟩
        secret newId).2 = store) ∧
    (∀ req : CreateReq,
      (∀ p ∈ store.sessions, p.2.class_start_time < p.2.class_end_time) →
      ∀ p ∈ (createSession store facultyId req secret newId).2.sessions,
        p.2.class_start_time < p.2.class_end_time) := by
  refine ⟨?_, ?_, ?_⟩
  · unfold createSession
    dsimp only
    split_ifs with h
    · simp [h]
    · simp [h]
  · unfold createSession
    dsimp only
    split_ifs with h
    · intro _; rfl
    · intro hcon; cases hcon
  · intro req hinv p hp
    obtain ⟨subjO, secO, stO, etO⟩ := req
    unfold createSession at hp
    cases subjO <;> cases secO <;> cases stO <;> cases etO <;>
      dsimp only at hp <;> try exact hinv p hp
    rename_i a b c d
    split_ifs at hp with h
    · exact hinv p hp
    · dsimp only at hp
      rcases List.mem_append.mp hp with hmem | hmem
      · exact hinv p hmem
      · rcases List.mem_singleton.mp hmem with rfl
        dsimp only
        omega

/-- Witness for createSession_window: a degenerate window is rejected and
the store stays empty. -/
theorem createSession_window_witness :
    (createSession ⟨[], [], [], []⟩ 3 ⟨some "Maths", some "A", some 100,
      some 100⟩ "k" 1).2 = ⟨[], [], [], []⟩ :=
  (createSession_window ⟨[], [], [], []⟩ 3 "Maths" "A" 100 100 "k" 1).2.1
    (by decide)

/-- Every subject entry produced by one aggregation step has a positive
session total, provided the accumulator already had that property. -/
theorem bumpStat_total_pos (b : Bool) (subj : String) (acc : List ClassStat)
    (hacc : ∀ c ∈ acc, 0 < c.total) :
    ∀ c ∈ bumpStat b subj acc, 0 < c.total := by
  induction acc with
  | nil =>
    intro c hc
    simp only [bumpStat, List.mem_singleton] at hc
    subst hc
    exact Nat.zero_lt_one
  | cons x xs ih =>
    intro c hc
    unfold bumpStat at hc
    by_cases hx : x.subject = subj
    · rw [if_pos hx] at hc
      rcases List.mem_cons.mp hc with rfl | hmem
      · exact Nat.succ_pos _
      · exact hacc c (List.mem_cons_of_mem _ hmem)
    · rw [if_neg hx] at hc
      rcases List.mem_cons.mp hc with rfl | hmem
      · exact hacc c (List.mem_cons_self c xs)
      · exact ih (fun d hd => hacc d (List.mem_cons_of_mem _ hd)) c hmem

/-- Every subject entry of the metrics aggregation counts at least one
session, so the per-subject zero guard never has to fire. -/
theorem subjectStats_total_pos (ids : List Nat)
    (sessions : List (Nat × Session)) :
    ∀ c ∈ subjectStatsOf ids sessions, 0 < c.total := by
  suffices h : ∀ acc, (∀ c ∈ acc, 0 < c.total) →
      ∀ c ∈ sessions.foldl
        (fun acc p => bumpStat (ids.contains p.1) p.2.subject acc) acc,
        0 < c.total by
    exact h [] (by simp)
  induction sessions with
  | nil => intro acc hacc; simpa using hacc
  | cons p ps ih =>
    intro acc hacc
    simp only [List.foldl_cons]
    exact ih _ (bumpStat_total_pos _ _ _ hacc)

/-- Claim C10: for a student user with a profile, getStudentMetrics
always answers a metrics object whose totals are the session and
attendance counts, whose overall percentage is zero when the section has
no sessions and the rounded ratio otherwise, and whose per-subject
entries all have positive totals with the rounded per-subject ratio, so
no percentage is ever computed by dividing by zero. -/
theorem getStudentMetrics_spec (store : Store) (userId : Nat) (u : User)
    (d : StudentDoc) (hu : findUser store userId = some u)
    (hrole : u.role = .student) (hd : u.student_details = some d) :
    ∃ m, getStudentMetrics store userId = some m ∧
      m.totalSessions =
        (store.sessions.filter fun p => p.2.sect == d.sect).length ∧
      m.attendedSessions =
        (store.attendance.filter fun r => r.student_id == userId).length ∧
      (m.totalSessions = 0 → m.overallPercent = 0) ∧
      (m.totalSessions ≠ 0 →
        m.overallPercent = jsRoundPct m.attendedSessions m.totalSessions) ∧
      ((store.sessions.filter fun p => p.2.sect == d.sect) = [] →
        m.totalSessions = 0 ∧ m.overallPercent = 0 ∧ m.classes = []) ∧
      (∀ c ∈ m.classes, 0 < c.total ∧ c.percent = jsRoundPct c.attended c.total) := by
  unfold getStudentMetrics
  rw [hu]
  dsimp only
  rw [if_neg (by simp [hrole]), hd]
  dsimp only
  refine ⟨_, rfl, rfl, rfl, ?_, ?_, ?_, ?_⟩
  · intro h
    dsimp only at h ⊢
    rw [h]
    simp
  · intro h
    dsimp only at h ⊢
    rw [if_neg (by simpa using h)]
  · intro h; simp [h, subjectStatsOf]
  · intro c hc
    rcases List.mem_map.mp hc with ⟨st, hst, rfl⟩
    have hpos := subjectStats_total_pos _ _ st hst
    constructor
    · exact hpos
    · simp [Nat.pos_iff_ne_zero.mp hpos]

/-- Witness for getStudentMetrics_spec: the enrolled-student fixture store
produces a metrics object. -/
theorem getStudentMetrics_spec_witness :
    (getStudentMetrics storeA 7).isSome = true := by
  obtain ⟨m, hm, -⟩ :=
    getStudentMetrics_spec storeA 7 userA detA (by decide) rfl rfl
  rw [hm]
  rfl

/-- Claim C2, counterexample: in the current markAttendance the QR code
check is removed, so a scan carrying a code that fails validateToken (the
token store is empty, so every code fails) still succeeds and still
inserts a record instead of failing with the invalid-token error. -/
theorem markAttendance_ignores_code_cex :
    validateToken [] 1 "ffffff" 50 = none ∧
    (markAttendance storeA ⟨some 1, some "ffffff", some 7⟩ 50).1 =
      .success ∧
    (markAttendance storeA ⟨some 1, some "ffffff", some 7⟩ 50).2.attendance =
      [recA] := by
  decide

/-- Claim C2, amended: in the controller snapshot that still checks the
QR code, a presented code different from the session secret is rejected
as an invalid QR code and no attendance record is created; in particular
the secret of session 1 presented against session 2 is rejected. -/
theorem markAttendanceV2_invalid_code (store : Store) (now : Int)
    (sid uid : Nat) (c : String) (session : Session)
    (hfind : findSession store sid = some session)
    (hact : session.is_active = true)
    (hne : session.secret_key ≠ c) :
    (markAttendanceV2 store ⟨some sid, some c, some uid⟩ now).1 =
      .invalidQR ∧
    (markAttendanceV2 store ⟨some sid, some c, some uid⟩ now).2 = store ∧
    (markAttendanceV2 storeXY ⟨some 2, some "s3cr3t", some 7⟩ 50).1 =
      .invalidQR := by
  refine ⟨?_, ?_, by decide⟩ <;>
  · unfold markAttendanceV2
    dsimp only
    rw [hfind]
    dsimp only
    rw [if_neg (by simp [hact]), if_pos hne]

/-- Witness for markAttendanceV2_invalid_code: the cross-session secret
is rejected and the store is unchanged. -/
theorem markAttendanceV2_invalid_code_witness :
    (markAttendanceV2 storeXY ⟨some 2, some "s3cr3t", some 7⟩ 50).2 =
      storeXY :=
  (markAttendanceV2_invalid_code storeXY 50 2 7 "s3cr3t" sessPhy
    (by decide) (by decide) (by decide)).2.1

/-- Claim C1, failing behaviour: the legacy Attendance collection that
markAttendance inserts into declares no unique (session_id, student_id)
index while the refactored AttendanceNew schema does; under the legacy
collection the interleaving check, check, insert, insert of two
concurrent requests for the same pair ends with both requests successful
and two records stored, whereas the very same interleaving over a
collection with the unique index ends with one success and one
already-marked rejection. -/
theorem concurrent_duplicate_eval :
    hasUniqueSessionStudentIndex attendanceSchemaIndexes = false ∧
    hasUniqueSessionStudentIndex attendanceSchemaNewIndexes = true ∧
    (concRun (hasUniqueSessionStudentIndex attendanceSchemaIndexes) recA
      ⟨[], [.ready, .ready]⟩ [0, 1, 0, 1]).threads =
      [.done .success, .done .success] ∧
    pairCount 1 7
      (concRun (hasUniqueSessionStudentIndex attendanceSchemaIndexes) recA
        ⟨[], [.ready, .ready]⟩ [0, 1, 0, 1]).recs = 2 ∧
    (concRun true recA ⟨[], [.ready, .ready]⟩ [0, 1, 0, 1]).threads =
      [.done .success, .done .alreadyMarked] ∧
    pairCount 1 7
      (concRun true recA ⟨[], [.ready, .ready]⟩ [0, 1, 0, 1]).recs = 1 := by
  decide

/-- Claim C4, failing behaviour: the section B student is not enrolled in
the section A teaching assignment (isStudentEnrolled is false and the
sections differ), yet markAttendance accepts the scan and inserts a
record, because the controller never consults enrollment. -/
theorem markAttendance_no_enrollment_check_eval :
    isStudentEnrolled teachA detB = false ∧
    sessMath.sect ≠ detB.sect ∧
    (markAttendance storeB ⟨some 1, none, some 8⟩ 50).1 = .success ∧
    (markAttendance storeB ⟨some 1, none, some 8⟩ 50).2.attendance =
      [⟨1, 8, "Bela", "1RV23CS002", 50⟩] := by
  decide

/-- isStudentEnrolled holds exactly when the student section and semester
match those of the teaching assignment. -/
theorem isStudentEnrolled_iff (t : Teaching) (s : StudentDoc) :
    isStudentEnrolled t s = true ↔
      s.sect = t.sect ∧ s.semester = t.semester := by
  simp [isStudentEnrolled]

/-- Claim C8, failing behaviour: both a successful mark and a temporal
denial leave the AuditLog collection empty, while the logAttendance
helper the schema offers would have appended exactly one event; the
controller simply never calls it. -/
theorem markAttendance_no_audit_eval :
    (markAttendance storeA ⟨some 1, none, some 7⟩ 50).1 = .success ∧
    (markAttendance storeA ⟨some 1, none, some 7⟩ 50).2.audit = [] ∧
    (markAttendance storeA ⟨some 1, none, some 7⟩ (-10)).1 = .notStarted ∧
    (markAttendance storeA ⟨some 1, none, some 7⟩ (-10)).2.audit = [] ∧
    (logAttendance [] (some 7) (some 1) true 50).length = 1 ∧
    (logAttendance [] (some 7) (some 1) false 50).length = 1 := by
  decide

/-- logAttendance appends exactly one audit event to the log. -/
theorem logAttendance_length (log : List AuditEvent) (student_id : Option Nat)
    (session_id : Option Nat) (success : Bool) (now : Int) :
    (logAttendance log student_id session_id success now).length =
      log.length + 1 := by
  simp [logAttendance, auditLog]

/-- Claim C9, failing behaviour: getSessionDetails answers the owning
faculty a secret-free view, but the teacher dashboard read of the same
store returns the stored session verbatim, secret included. -/
theorem sessionSecret_dashboard_leak_eval :
    getSessionDetails storeA 1 3 = .ok (sessionView sessMath) [] ∧
    ((getTeacherDashboardData storeA 3 50 0 86400000).recentSessions.map
      (·.secret_key)) = ["s3cr3t"] := by
  decide

/-- Looking a session up in a store whose secrets were all replaced gives
the same document with the replaced secret. -/
theorem findSession_mapSecret (store : Store) (sid : Nat) (sk : String) :
    findSession (mapSecret store sk) sid =
      (findSession store sid).map fun s => { s with secret_key := sk } := by
  unfold findSession mapSecret
  dsimp only
  induction store.sessions with
  | nil => rfl
  | cons p ps ih =>
    by_cases hp : p.1 == sid
    · simp [List.find?_cons_of_pos, hp]
    · simpa [List.find?_cons_of_neg, hp] using ih

/-- The getSessionDetails response does not depend on the stored secrets:
stores whose sessions differ only in secret_key are answered alike. -/
theorem getSessionDetails_secret_noninterference (store : Store)
    (sid requesterId : Nat) (sk : String) :
    getSessionDetails (mapSecret store sk) sid requesterId =
      getSessionDetails store sid requesterId := by
  unfold getSessionDetails
  rw [findSession_mapSecret]
  cases findSession store sid with
  | none => rfl
  | some s =>
    dsimp only [Option.map, mapSecret]
    split_ifs <;> rfl

/-- The duplicate pre-check misses exactly when the pair has no record. -/
theorem findAttendance_none_iff (recs : List AttendanceRecord)
    (sid stu : Nat) :
    findAttendance recs sid stu = none ↔ pairCount sid stu recs = 0 := by
  unfold findAttendance pairCount
  rw [List.find?_eq_none, List.countP_eq_zero]

/-- One atomic access of a request cannot break the at-most-one-record
invariant when the collection carries the unique index: the insert
re-checks the pair atomically and is rejected on a hit. -/
theorem concStep_pairCount_le_one (rec : AttendanceRecord) (cfg : ConcConfig)
    (i : Nat) (h : pairCount rec.session_id rec.student_id cfg.recs ≤ 1) :
    pairCount rec.session_id rec.student_id (concStep true rec cfg i).recs ≤ 1 := by
  unfold concStep
  cases hph : cfg.threads.get? i with
  | none => simp only [hph]; exact h
  | some ph =>
    cases ph with
    | ready =>
      simp only [hph]
      split_ifs <;> exact h
    | inserting =>
      simp only [hph]
      unfold insertAttendance
      by_cases hdup :
          (findAttendance cfg.recs rec.session_id rec.student_id).isSome
      · simp only [hdup, Bool.true_and, if_pos]
        exact h
      · have hnone :
            findAttendance cfg.recs rec.session_id rec.student_id = none :=
          Option.not_isSome_iff_eq_none.mp hdup
        have h0 : pairCount rec.session_id rec.student_id cfg.recs = 0 :=
          (findAttendance_none_iff _ _ _).mp hnone
        simp only [hdup, Bool.true_and, Bool.false_eq_true, if_false]
        unfold pairCount at h0 ⊢
        rw [List.countP_append, h0]
        cases hp : (fun r : AttendanceRecord =>
            r.session_id == rec.session_id &&
            r.student_id == rec.student_id) rec <;>
          simp [List.countP_cons, hp]
    | done r =>
      simp only [hph]
      exact h

/-- With the unique (session_id, student_id) index of AttendanceSchemaNew
in force, every interleaving of any number of concurrent markAttendance
requests for one pair keeps at most one record of that pair. -/
theorem concRun_unique_pairCount (rec : AttendanceRecord) (sched : List Nat)
    (cfg : ConcConfig)
    (h : pairCount rec.session_id rec.student_id cfg.recs ≤ 1) :
    pairCount rec.session_id rec.student_id
      (concRun true rec cfg sched).recs ≤ 1 := by
  induction sched generalizing cfg with
  | nil => exact h
  | cons i rest ih => exact ih _ (concStep_pairCount_le_one rec cfg i h)

end DynaQR
